import Mathlib

/-!
Shallow embedding of the asin-product-details-scraper core
(`src/amazon_scraper.py`, `src/parsers.py`, `src/session_pool.py`,
`src/utils.py`) and proofs about its specification claims.

Conventions:
* Python strings are modelled as `String` / `List Char`.
* A Python function that can raise an exception is modelled as returning
  `Option` (with `none` = an exception escapes the function).
* Money amounts (Python floats parsed from digit strings) are modelled as `ℚ`.
* "The current date" (`datetime.now()` truncated to midnight) is an explicit
  `Date` parameter.
-/

set_option maxRecDepth 10000

/-- Substring test on character lists, mirroring Python's `in` operator on
strings (`pat in hay`). -/
def hasSubstr : List Char → List Char → Bool
  | [], pat => pat.isEmpty
  | c :: t, pat => pat.isPrefixOf (c :: t) || hasSubstr t pat

/-- Python `pat in s` for strings. -/
def strContains (s pat : String) : Bool := hasSubstr s.data pat.data

/-- Index of the first occurrence of `pat` in `hay` (Python `hay.find(pat)`
with `none` for `-1`). -/
def findSub : List Char → List Char → Option Nat
  | [], pat => if pat.isEmpty then some 0 else none
  | c :: t, pat =>
    if pat.isPrefixOf (c :: t) then some 0 else (findSub t pat).map (· + 1)

/-- Characters after the first occurrence of `pat` (empty if absent). -/
def afterFirst : List Char → List Char → List Char
  | [], _ => []
  | c :: t, pat =>
    if pat.isPrefixOf (c :: t) then (c :: t).drop pat.length else afterFirst t pat

/-- Prefix of `hay` before the next occurrence of `pat` (all of `hay` when
`pat` is absent). -/
def upToNext (hay pat : List Char) : List Char :=
  match findSub hay pat with
  | some i => hay.take i
  | none => hay

/-- Python `s.lower()` (ASCII case folding, which covers every string the
scraper feeds through it). -/
def lowerStr (s : String) : String := String.mk (s.data.map Char.toLower)

/-- Numeric value of a digit character. -/
def digitVal (c : Char) : Nat := c.toNat - 48

/-- Value of a digit string read in base 10. -/
def natFromDigits (l : List Char) : Nat := l.foldl (fun a c => a * 10 + digitVal c) 0

/-- First codepoints of the Unicode category `Nd` (decimal digit) blocks,
Unicode 14.0 (CPython 3.11's `unicodedata`). Each block is an aligned run of
ten codepoints whose decimal values are 0 through 9 in order. -/
def ndRangeStarts : List Nat :=
  [0x30, 0x660, 0x6f0, 0x7c0, 0x966, 0x9e6, 0xa66, 0xae6, 0xb66, 0xbe6,
   0xc66, 0xce6, 0xd66, 0xde6, 0xe50, 0xed0, 0xf20, 0x1040, 0x1090, 0x17e0,
   0x1810, 0x1946, 0x19d0, 0x1a80, 0x1a90, 0x1b50, 0x1bb0, 0x1c40, 0x1c50,
   0xa620, 0xa8d0, 0xa900, 0xa9d0, 0xa9f0, 0xaa50, 0xabf0, 0xff10,
   0x104a0, 0x10d30, 0x11066, 0x110f0, 0x11136, 0x111d0, 0x112f0, 0x11450,
   0x114d0, 0x11650, 0x116c0, 0x11730, 0x118e0, 0x11950, 0x11c50, 0x11d50,
   0x11da0, 0x16a60, 0x16ac0, 0x16b50, 0x1d7ce, 0x1d7d8, 0x1d7e2, 0x1d7ec,
   0x1d7f6, 0x1e140, 0x1e2f0, 0x1e950, 0x1fbf0]

/-- Unicode decimal digit (category `Nd`): exactly the characters matched by
Python's `\d` (e.g. `'٣'` as well as `'3'`). -/
def isNdDigit (c : Char) : Bool :=
  ndRangeStarts.any (fun b => b ≤ c.toNat && c.toNat < b + 10)

/-- Decimal value of an `Nd` digit, as `int` reads it (`int('٣') = 3`):
offset from the start of its block. -/
def ndVal (c : Char) : Nat :=
  match ndRangeStarts.find? (fun b => b ≤ c.toNat && c.toNat < b + 10) with
  | some b => c.toNat - b
  | none => 0

/-- Python `re.findall(r'\d+', s)` followed by `int(...)` on each run:
all maximal runs of Unicode decimal digits of `s`, as numbers, in order of
appearance. The accumulator holds the digit run currently being read. -/
def digitRunsAux : List Char → Option Nat → List Nat
  | [], none => []
  | [], some n => [n]
  | c :: t, acc =>
    if isNdDigit c then digitRunsAux t (some ((acc.getD 0) * 10 + ndVal c))
    else
      match acc with
      | none => digitRunsAux t none
      | some n => n :: digitRunsAux t none

/-- All maximal decimal-digit runs of a string, as numbers. -/
def digitRuns (s : String) : List Nat := digitRunsAux s.data none

/-- Python `re.sub(r'[^\d.]', '', s)`: keep only digits and dots. -/
def stripMoney (s : String) : String := String.mk (s.data.filter (fun c => c.isDigit || c = '.'))

/-- Python `float(s)` restricted to strings of digits and dots (the only
inputs the scraper feeds it, after `stripMoney`): `none` models a raised
`ValueError` (empty string, bare dot, more than one dot). -/
def parseMoney (s : String) : Option ℚ :=
  let cs := s.data
  let intPart := cs.takeWhile Char.isDigit
  let rest := cs.drop intPart.length
  match rest with
  | [] => if intPart.isEmpty then none else some (mkRat (natFromDigits intPart) 1)
  | '.' :: frac =>
    if frac.all Char.isDigit then
      if intPart.isEmpty && frac.isEmpty then none
      else some (mkRat (natFromDigits (intPart ++ frac)) (10 ^ frac.length))
    else none
  | _ => none

/-! ### Calendar dates

Python's `datetime` values appearing in `parse_delivery_days` are always
midnight-of-a-day, so a date triple suffices; subtraction of two datetimes
followed by `.days` is the difference of day ordinals. -/

structure Date where
  year : Nat
  month : Nat
  day : Nat
deriving DecidableEq, Repr

def isLeapYear (y : Nat) : Bool := y % 4 = 0 && (y % 100 ≠ 0 || y % 400 = 0)

def daysInMonth (y m : Nat) : Nat :=
  if m = 2 then (if isLeapYear y then 29 else 28)
  else if m = 4 || m = 6 || m = 9 || m = 11 then 30
  else 31

/-- Days in year `y` strictly before month `m`. -/
def daysBeforeMonth (y m : Nat) : Nat :=
  (List.range' 1 (m - 1)).foldl (fun a mm => a + daysInMonth y mm) 0

/-- Days strictly before year `y` in the proleptic Gregorian calendar. -/
def daysBeforeYear (y : Nat) : Nat :=
  365 * (y - 1) + ((y - 1) / 4 - (y - 1) / 100) + (y - 1) / 400

/-- Day ordinal of a date (Gregorian rata die). -/
def toOrdinal (d : Date) : Nat := daysBeforeYear d.year + daysBeforeMonth d.year d.month + d.day

/-- `(a - b).days` on midnight datetimes. -/
def dayDiff (a b : Date) : Int := (toOrdinal a : Int) - (toOrdinal b : Int)

/-- Rational addition computed through `mkRat` (needed because the ambient
`+` on `ℚ` is irreducible; `ratAdd_eq` below proves it is the same
function). -/
def ratAdd (a b : ℚ) : ℚ := mkRat (a.num * b.den + b.num * a.den) (a.den * b.den)

/-- Python `datetime(year, month, day)`: `none` models the `ValueError`
raised on an out-of-range component. -/
def mkDate (y m d : Nat) : Option Date :=
  if 1 ≤ y && y ≤ 9999 && 1 ≤ m && m ≤ 12 && 1 ≤ d && d ≤ daysInMonth y m then
    some ⟨y, m, d⟩
  else none

/-! ### The clock-time-range regular expression

`re.search(r'(\d+(?::\d+)?\s*(?:AM|PM)\s*-\s*\d+(?::\d+)?\s*(?:AM|PM))', s,
re.IGNORECASE)`.  Because every alternative after a greedy run starts with a
character the run cannot contain, maximal munch is exact for this pattern, so
the matcher below reproduces the regex engine's behaviour. -/

def isSpaceCh (c : Char) : Bool :=
  c = ' ' || c = '\t' || c = '\n' || c = '\r' || c = '\x0b' || c = '\x0c'

def splitWhile (p : Char → Bool) (cs : List Char) : List Char × List Char :=
  (cs.takeWhile p, cs.dropWhile p)

/-- Python `s.strip()`: drop whitespace from both ends. -/
def trimStr (s : String) : String :=
  String.mk (((s.data.dropWhile isSpaceCh).reverse.dropWhile isSpaceCh).reverse)

/-- The optional `(?::\d+)?` group. Returns (consumed, rest). -/
def optColonDigits : List Char → List Char × List Char
  | ':' :: rest =>
    let d := rest.takeWhile Char.isDigit
    if d.isEmpty then ([], ':' :: rest) else (':' :: d, rest.dropWhile Char.isDigit)
  | cs => ([], cs)

/-- `(?:AM|PM)` with `re.IGNORECASE`. Returns (consumed, rest). -/
def ampmAt : List Char → Option (List Char × List Char)
  | a :: m :: rest =>
    if (a = 'A' || a = 'a' || a = 'P' || a = 'p') && (m = 'M' || m = 'm') then
      some ([a, m], rest)
    else none
  | _ => none

/-- Try to match the whole time-range pattern at the head of `cs`. -/
def timeMatchAt (cs : List Char) : Option (List Char) :=
  let (d1, r1) := splitWhile Char.isDigit cs
  if d1.isEmpty then none else
  let (c1, r2) := optColonDigits r1
  let (s1, r3) := splitWhile isSpaceCh r2
  match ampmAt r3 with
  | none => none
  | some (a1, r4) =>
    let (s2, r5) := splitWhile isSpaceCh r4
    match r5 with
    | '-' :: r6 =>
      let (s3, r7) := splitWhile isSpaceCh r6
      let (d2, r8) := splitWhile Char.isDigit r7
      if d2.isEmpty then none else
      let (c2, r9) := optColonDigits r8
      let (s4, r10) := splitWhile isSpaceCh r9
      match ampmAt r10 with
      | none => none
      | some (a2, _) =>
        some (d1 ++ c1 ++ s1 ++ a1 ++ s2 ++ ['-'] ++ s3 ++ d2 ++ c2 ++ s4 ++ a2)
    | _ => none

/-- `re.search`: leftmost starting position that matches. -/
def searchTimeAux : List Char → Option (List Char)
  | [] => none
  | c :: t =>
    match timeMatchAt (c :: t) with
    | some m => some m
    | none => searchTimeAux t

/-- The `time_range` extracted by `parse_delivery_days`. -/
def searchTimeRange (s : String) : Option String := (searchTimeAux s.data).map String.mk

/-! ### `parse_delivery_days` (src/parsers.py lines 78-165) -/

/-- The `months` dictionary of `parse_delivery_days`, in its (insertion)
iteration order. -/
def monthsTable : List (String × Nat) :=
  [("January", 1), ("February", 2), ("March", 3), ("April", 4),
   ("May", 5), ("June", 6), ("July", 7), ("August", 8),
   ("September", 9), ("October", 10), ("November", 11), ("December", 12)]

/-- `[month for month in months if month in delivery_estimate]`: iterates the
dictionary keys (calendar order), not the text. -/
def mentionedMonths (s : String) : List (String × Nat) :=
  monthsTable.filter (fun p => strContains s p.1)

/-- `parse_delivery_days(delivery_estimate)` with `today` (midnight of the
current date) made explicit.  Result `none` models an uncaught exception
(`datetime` raising `ValueError`); `some (e, l, t)` is the returned triple
`(earliest_days, latest_days, time_range)`. -/
def parse_delivery_days (today : Date) (text : String) :
    Option (Option Int × Option Int × Option String) :=
  if text = "" then some (none, none, none)
  else
    let tr := searchTimeRange text
    let lower := lowerStr text
    if strContains lower "overnight" then some (some 0, some 0, tr)
    else if strContains lower "today" then some (some 0, some 0, tr)
    else if strContains lower "tomorrow" then some (some 1, some 1, tr)
    else
      match mentionedMonths text, digitRuns text with
      | [], _ => some (none, none, none)
      | m1 :: restMonths, d1 :: d2 :: _ =>
        let em := m1.2
        let lm := match restMonths with | [] => m1.2 | m2 :: _ => m2.2
        let ey := if em < today.month then today.year + 1 else today.year
        let ly := if lm < today.month then today.year + 1 else today.year
        (match mkDate ey em d1, mkDate ly lm d2 with
         | some ed, some ld => some (some (dayDiff ed today), some (dayDiff ld today), tr)
         | _, _ => none)
      | m1 :: _, [d] =>
        let y := if m1.2 < today.month then today.year + 1 else today.year
        (match mkDate y m1.2 d with
         | some dd => some (some (dayDiff dd today), some (dayDiff dd today), tr)
         | none => none)
      | _ :: _, [] => some (none, none, none)

/-- Whether every `datetime(year, month, day)` constructed by the month/day
branches of `parse_delivery_days` is a valid calendar date (`false` means
the branch raises `ValueError`). The year resolution is the branches' own;
inputs that reach no construction count as valid. -/
def resolvedDatesValid (today : Date) (text : String) : Bool :=
  match mentionedMonths text, digitRuns text with
  | [], _ => true
  | m1 :: restMonths, d1 :: d2 :: _ =>
    let em := m1.2
    let lm := match restMonths with | [] => m1.2 | m2 :: _ => m2.2
    let ey := if em < today.month then today.year + 1 else today.year
    let ly := if lm < today.month then today.year + 1 else today.year
    ((mkDate ey em d1).isSome && (mkDate ly lm d2).isSome)
  | m1 :: _, [d] =>
    let y := if m1.2 < today.month then today.year + 1 else today.year
    (mkDate y m1.2 d).isSome
  | _ :: _, [] => true

/-! ### `extract_offer_data` / `parse_offers` (src/parsers.py lines 33-269)

An offer `div` is modelled by the facts the xpath queries extract from it;
everything downstream of the queries is translated faithfully. -/

/-- The delivery element (`DEXUnifiedCXSDM` / `DEXUnifiedCXPDM` span) chosen
by `extract_offer_data`, when one exists. -/
structure DeliveryElem where
  /-- `data-csa-c-delivery-price` attribute; `none` when the attribute is
  absent (Python's `.get` then yields `None`). -/
  priceAttr : Option String
  /-- joined text of the `a-text-bold` span when present. -/
  boldText : Option String
deriving DecidableEq, Repr

/-- The seller link/span found under `aod-offer-soldBy`. -/
structure SellerElem where
  /-- `element.text`; `None` possible in lxml. -/
  text : Option String
  /-- `href` attribute; `.get('href', '1')` defaults to `"1"`. -/
  href : Option String
deriving DecidableEq, Repr

/-- One offer div, summarised by what its xpath queries return. -/
structure OfferDiv where
  primeBadge : Bool
  priceWhole : Option String
  priceFraction : Option String
  delivery : Option DeliveryElem
  seller : Option SellerElem
deriving DecidableEq, Repr

/-- The dictionary built by `extract_offer_data`. -/
structure OfferData where
  seller_id : Option String
  seller_name : Option String
  buy_box_winner : Bool
  prime : Bool
  price : Option ℚ
  shipping_cost : Option ℚ
  total_price : Option ℚ
  earliest_days : Option Int
  latest_days : Option Int
  delivery_time_range : Option String
  delivery_estimate : Option String
deriving DecidableEq, Repr

/-- `extract_seller_id(seller_url)`. -/
def extract_seller_id (sellerUrl : String) : Option String :=
  if sellerUrl = "" then none
  else if strContains sellerUrl "seller=" then
    -- seller_url.split('seller=')[1].split('&')[0]
    some (String.mk ((upToNext (afterFirst sellerUrl.data ("seller=".data)) ("seller=".data)).takeWhile (fun c => c ≠ '&')))
  else none

/-- The price components step: `none` models the `ValueError` from
`float(...)`; `some p?` is the optional parsed price. -/
def priceFields (div : OfferDiv) : Option (Option ℚ) :=
  match div.priceWhole, div.priceFraction with
  | some w, some f =>
    (match parseMoney (stripMoney (trimStr w ++ "." ++ trimStr f)) with
     | none => none
     | some p => some (some p))
  | _, _ => some none

/-- The shipping-cost computation: `none` models the `TypeError` raised when
the attribute is missing (`re.sub` applied to `None`) or the `ValueError`
from `float`. -/
def shippingVal (de : DeliveryElem) : Option ℚ :=
  match de.priceAttr with
  | none => none
  | some s =>
    if s = "FREE" then some 0
    else
      let sc := stripMoney s
      if sc = "" then some 0 else parseMoney sc

/-- The `delivery_estimate` string formatting. -/
def estimateStr (txt : String) (tr : Option String) : String :=
  match tr with
  | some t =>
    if strContains (lowerStr txt) "overnight" then "Overnight " ++ t
    else if strContains (lowerStr txt) "today" then "Today " ++ t
    else txt
  | none => txt

/-- Seller-information step: `none` models the `AttributeError` from
`None.strip()`. Returns (seller_name, seller_id). -/
def sellerFields (se : SellerElem) : Option (String × Option String) :=
  match se.text with
  | none => none
  | some nm => some (trimStr nm, extract_seller_id (se.href.getD "1"))

/-- Final step of `extract_offer_data`: fill in the seller fields. -/
def finishSeller (div : OfferDiv) (od : OfferData) : Option OfferData :=
  match div.seller with
  | none => some od
  | some se =>
    match sellerFields se with
    | none => none
    | some (nm, sid) => some { od with seller_name := some nm, seller_id := sid }

/-- `extract_offer_data(offer_div, is_pinned)`; `none` models an uncaught
exception (which aborts `parse_offers`). -/
def extract_offer_data (today : Date) (div : OfferDiv) (isPinned : Bool) : Option OfferData :=
  let base : OfferData :=
    { seller_id := none, seller_name := none, buy_box_winner := isPinned,
      prime := div.primeBadge, price := none, shipping_cost := none,
      total_price := none, earliest_days := none, latest_days := none,
      delivery_time_range := none, delivery_estimate := none }
  match priceFields div with
  | none => none
  | some priceOpt =>
    let od := match priceOpt with
      | some p => { base with price := some p, total_price := some p }
      | none => base
    match div.delivery with
    | none => finishSeller div od
    | some de =>
      match shippingVal de with
      | none => none
      | some sc =>
        -- `offer_data['price'] + offer_data['shipping_cost']`:
        -- KeyError when no price was extracted.
        match priceOpt with
        | none => none
        | some p =>
          let od := { od with shipping_cost := some sc, total_price := some (ratAdd p sc) }
          match de.boldText with
          | none => finishSeller div od
          | some txt =>
            match parse_delivery_days today txt with
            | none => none
            | some (e, l, tr) =>
              finishSeller div
                { od with earliest_days := e, latest_days := l,
                          delivery_time_range := tr,
                          delivery_estimate := some (estimateStr txt tr) }

/-- Option-valued map preserving order, mirroring a Python loop whose body
may raise: the first exception aborts the whole list construction. -/
def mapOpt (f : α → Option β) : List α → Option (List β)
  | [] => some []
  | a :: t =>
    match f a, mapOpt f t with
    | some b, some bs => some (b :: bs)
    | _, _ => none

/-- The offers listing document, summarised by what the three top-level xpath
queries of `parse_offers` return. -/
structure OffersDoc where
  /-- a Prime icon is present in `aod-filter-list`. -/
  filterHasPrime : Bool
  /-- the `aod-pinned-offer` div, when present. -/
  pinned : Option OfferDiv
  /-- the `aod-offer` divs, in document order. -/
  divs : List OfferDiv
deriving Repr

/-- `parse_offers(html_text)`: the returned offers list (before JSON
round-tripping, which is the identity on this data) and the Prime-filter
flag; `none` models an uncaught exception. -/
def parse_offers (today : Date) (doc : OffersDoc) : Option (List OfferData × Bool) :=
  match
    (match doc.pinned with
     | none => some []
     | some d => (extract_offer_data today d true).map ([·])) with
  | none => none
  | some pinnedPart =>
    match mapOpt (fun d => extract_offer_data today d false) doc.divs with
    | none => none
    | some rest => some (pinnedPart ++ rest, doc.filterHasPrime)

/-! ### The offer merge (src/amazon_scraper.py lines 486-492) -/

/-- The merge loop of `get_product_data`: build the set of seller ids of the
Prime-filtered offers, then flag every offer of the unfiltered list. -/
def mergeOffers (allOffers primeOffers : List OfferData) : List OfferData :=
  let primeSellerIds := primeOffers.map (·.seller_id)
  allOffers.map (fun o => { o with prime := decide (o.seller_id ∈ primeSellerIds) })

/-! ### `AmazonScraper.get_product_data` control flow
(src/amazon_scraper.py lines 409-505)

HTTP transport and HTML parsing are external; one `get_product_data` run is
modelled as a function of the outcomes those collaborators would produce
(`FetchEnv`) and of the scraper's mutable fields (`ScraperState`). -/

/-- Outcome of one `_make_initial_product_page_request` round-trip. -/
structure PageResult where
  /-- transport succeeded with status 200. -/
  ok : Bool
  /-- the result `parse_product_details` would return for this page
  (that function swallows its own errors and returns at worst `{}`,
  modelled as `[]`). -/
  details : List (String × String)
  /-- outcome of the CSRF-token extraction from this page (`none` covers the
  modal/attribute/scan/JSON failure paths, all of which return `None`). -/
  token : Option String
deriving DecidableEq, Repr

/-- Outcomes of the external requests/parses one `get_product_data` call can
perform. -/
structure FetchEnv where
  /-- the request made by `initialize_session` (parse_details=False). -/
  page1 : PageResult
  /-- the step-1 request of `get_product_data` itself (parse_details=True). -/
  page2 : PageResult
  /-- step 2: the second CSRF token from the modal HTML (`none` = failure). -/
  modalToken : Option String
  /-- step 3 transport: the unfiltered offers page arrived. -/
  allOffersHtml : Bool
  /-- step 3 parse: `parse_offers` + `json.loads` outcome (offers, prime filter flag);
  `none` = an exception, aborting the fetch. -/
  allParse : Option (List OfferData × Bool)
  /-- step 4 transport: the Prime-filtered offers page arrived. -/
  primeHtml : Bool
  /-- step 4 parse outcome; `none` = an exception, which is caught. -/
  primeParse : Option (List OfferData)
deriving DecidableEq, Repr

/-- The scraper instance fields that `get_product_data` reads and writes. -/
structure ScraperState where
  is_initialized : Bool
  product_details : Option (List (String × String))
  initial_csrf_token : Option String
deriving DecidableEq, Repr

/-- A freshly constructed `AmazonScraper`. -/
def freshScraper : ScraperState :=
  { is_initialized := false, product_details := none, initial_csrf_token := none }

/-- Python truthiness of `self.product_details` (`None` and `{}` are falsy). -/
def detailsTruthy : Option (List (String × String)) → Bool
  | none => false
  | some l => !l.isEmpty

/-- `_make_initial_product_page_request(asin, parse_details)`: returns the
token (or `None`) and updates `product_details` when asked to and the cached
value is falsy. The details are cached even when token extraction fails,
because parsing happens before extraction in the source. -/
def pageRequest (pr : PageResult) (parseDetails : Bool) (st : ScraperState) :
    Option String × ScraperState :=
  if pr.ok then
    let st' :=
      if parseDetails && !detailsTruthy st.product_details then
        { st with product_details := some pr.details }
      else st
    (pr.token, st')
  else (none, st)

/-- `initialize_session`: a fresh session plus the first product-page
request; marks the scraper initialized only on success. -/
def initSession (pr : PageResult) (st : ScraperState) : Bool × ScraperState :=
  let r := pageRequest pr false st
  let st' := { r.2 with initial_csrf_token := r.1 }
  match r.1 with
  | some _ => (true, { st' with is_initialized := true })
  | none => (false, st')

/-- The `final_data` dictionary returned by a successful fetch
(the wall-clock timestamp is external and omitted). -/
structure ProductRecord where
  asin : String
  product_details : Option (List (String × String))
  offers_data : List OfferData
deriving DecidableEq, Repr

/-- `get_product_data(asin)`: `none` models the `return None` failure paths.
The final state is the scraper's fields after the call. -/
def get_product_data (env : FetchEnv) (asin : String) (st : ScraperState) :
    Option ProductRecord × ScraperState :=
  let init := if st.is_initialized then (true, st) else initSession env.page1 st
  if !init.1 then (none, init.2)
  else
    let r := pageRequest env.page2 true init.2
    let st2 := { r.2 with initial_csrf_token := r.1 }
    match r.1 with
    | none => (none, st2)
    | some _ =>
      match env.modalToken with
      | none => (none, st2)
      | some _ =>
        if !env.allOffersHtml then (none, st2)
        else
          match env.allParse with
          | none => (none, st2)
          | some (allData, hasPrime) =>
            let primeData : List OfferData :=
              if hasPrime then
                (if env.primeHtml then env.primeParse.getD [] else [])
              else []
            (some { asin := asin, product_details := st2.product_details,
                    offers_data := mergeOffers allData primeData }, st2)

/-! ### Configuration and session pool
(src/utils.py `load_config`, src/session_pool.py `initialize_pool`) -/

structure ConcurrencyControl where
  initial_concurrent : Nat
  scale_up_delay : ℚ
  scale_increment : Nat
deriving DecidableEq, Repr

structure Config where
  allow_proxy : Bool
  initial_session_pool_size : Nat
  concurrent_requests_control : ConcurrencyControl
deriving DecidableEq, Repr

/-- The default configuration `load_config` returns when `config.json`
cannot be read. -/
def defaultConfig : Config :=
  { allow_proxy := false,
    initial_session_pool_size := 5,
    concurrent_requests_control :=
      { initial_concurrent := 3, scale_up_delay := 1 / 2000, scale_increment := 2 } }

/-- `load_config()`: the parsed `config.json` when readable, else defaults. -/
def load_config (file : Option Config) : Config :=
  match file with
  | some c => c
  | none => defaultConfig

/-- Number of session initializations `SessionPool.initialize_pool` submits:
the loop is `for i in range(5)`, a hard-coded constant. -/
def poolInitAttempts (_config : Config) : Nat := 5

/-! ### The CSRF-token bracket scanner
(src/amazon_scraper.py lines 183-237) -/

/-- The scan-loop state: bracket depth (Python allows it to go negative),
inside-string-literal flag, escape-pending flag. -/
structure ScanSt where
  count : Int
  inQ : Bool
  esc : Bool
deriving DecidableEq, Repr

/-- Scanner start state. -/
def scanStart : ScanSt := { count := 0, inQ := false, esc := false }

/-- The `while json_end < len(html)` loop: returns the `json_end` at which
the loop `break`s, or `none` when it runs off the end of the input.  `pos`
is the absolute position of the head of `cs`. -/
def scanLoop : List Char → ScanSt → Nat → Option Nat
  | [], _, _ => none
  | c :: rest, s, pos =>
    if s.esc then scanLoop rest { s with esc := false } (pos + 1)
    else if c = '\\' then scanLoop rest { s with esc := true } (pos + 1)
    else if c = '"' then
      if s.inQ then scanLoop rest { s with inQ := false } (pos + 1)
      else if s.count = 0 then some pos
      else scanLoop rest { s with inQ := true } (pos + 1)
    else if !s.inQ && c = '{' then scanLoop rest { s with count := s.count + 1 } (pos + 1)
    else if !s.inQ && c = '}' then
      if s.count = 1 then some (pos + 1)
      else scanLoop rest { s with count := s.count - 1 } (pos + 1)
    else scanLoop rest s (pos + 1)

/-- One non-breaking transition of the scan loop. -/
def scanStep (s : ScanSt) (c : Char) : ScanSt :=
  if s.esc then { s with esc := false }
  else if c = '\\' then { s with esc := true }
  else if c = '"' then
    (if s.inQ then { s with inQ := false } else { s with inQ := true })
  else if !s.inQ && c = '{' then { s with count := s.count + 1 }
  else if !s.inQ && c = '}' then { s with count := s.count - 1 }
  else s

/-- Whether the loop `break`s on character `c` in state `s`: a quote at
bracket depth 0, or a closing brace bringing the depth to 0. -/
def isTerm (s : ScanSt) (c : Char) : Bool :=
  !s.esc && c ≠ '\\' && !s.inQ && ((c = '"' && s.count = 0) || (c = '}' && s.count = 1))

/-- Scanner state after consuming the first `i` characters of `cs`. -/
def stateAt (s : ScanSt) (cs : List Char) (i : Nat) : ScanSt :=
  (cs.take i).foldl scanStep s

/-- `id="nav-global-location-data-modal-action"`, the modal anchor. -/
def anchorModal : List Char := "id=\"nav-global-location-data-modal-action\"".data

/-- `data-a-modal='`, the primary attribute anchor. -/
def attrSingle : List Char := "data-a-modal=\x27".data

/-- `data-a-modal="{`, the fallback attribute anchor. -/
def attrDouble : List Char := "data-a-modal=\"\x7b".data

/-- `html.find(pat, start)`: first occurrence at or after `start`. -/
def findFrom (cs pat : List Char) (start : Nat) : Option Nat :=
  (findSub (cs.drop start) pat).map (· + start)

/-- The anchor-location phase: position right after `data-a-modal="`
(14 characters past the attribute anchor), or `none` when an anchor is
missing. -/
def jsonStart (cs : List Char) : Option Nat :=
  match findSub cs anchorModal with
  | none => none
  | some m =>
    match findFrom cs attrSingle m with
    | some a => some (a + 14)
    | none =>
      match findFrom cs attrDouble m with
      | some a => some (a + 14)
      | none => none

/-- The token-scan primitive of `_make_initial_product_page_request`:
locate the anchors, run the bracket scan, and — mirroring the source's
`if json_end >= len(html): return None` check — fail unless the break
position lies strictly inside the input; on success return
`html[json_start:json_end]`. -/
def extractModalSpan (cs : List Char) : Option (List Char) :=
  match jsonStart cs with
  | none => none
  | some j =>
    match scanLoop (cs.drop j) scanStart j with
    | none => none
    | some e => if e < cs.length then some ((cs.drop j).take (e - j)) else none

/-! ### Concrete example inputs -/

/-- An offer with only a seller id (the shape of the spec's merge example). -/
def offerWithSeller (sid : Option String) : OfferData :=
  { seller_id := sid, seller_name := none, buy_box_winner := false, prime := false,
    price := none, shipping_cost := none, total_price := none, earliest_days := none,
    latest_days := none, delivery_time_range := none, delivery_estimate := none }

/-- Modal anchor + `data-a-modal='` + `{"a":"b\"}c"}` + a trailing space. -/
def exGood : List Char :=
  ("id=\"nav-global-location-data-modal-action\" data-a-modal=\x27\x7b\"a\":\"b\\\"\x7dc\"\x7d ").data

/-- Modal anchor + `data-a-modal='` + `{}` with the balanced span ending
exactly at the end of the input. -/
def exEnd : List Char :=
  ("id=\"nav-global-location-data-modal-action\" data-a-modal=\x27\x7b\x7d").data

/-- Fields the merged-offer record must share with its source offer. -/
def mergedMatches (o m : OfferData) (primeOffers : List OfferData) : Prop :=
  m.seller_id = o.seller_id ∧ m.seller_name = o.seller_name ∧
  m.buy_box_winner = o.buy_box_winner ∧ m.price = o.price ∧
  m.shipping_cost = o.shipping_cost ∧ m.total_price = o.total_price ∧
  m.earliest_days = o.earliest_days ∧ m.latest_days = o.latest_days ∧
  m.delivery_time_range = o.delivery_time_range ∧
  m.delivery_estimate = o.delivery_estimate ∧
  (m.prime = true ↔ o.seller_id ∈ primeOffers.map (·.seller_id))

/-- A minimal offer div all of whose xpath queries come back empty. -/
def plainDiv : OfferDiv :=
  { primeBadge := false, priceWhole := none, priceFraction := none,
    delivery := none, seller := none }

/-- A document with a pinned offer and one ordinary offer. -/
def c3Doc : OffersDoc := { filterHasPrime := false, pinned := some plainDiv, divs := [plainDiv] }

/-- The offers `parse_offers` extracts from `c3Doc`. -/
def c3Offers : List OfferData :=
  [{ offerWithSeller none with buy_box_winner := true }, offerWithSeller none]

/-- The offer div for the C4 witness: a priced offer with FREE shipping. -/
def c4Div : OfferDiv :=
  { primeBadge := false, priceWhole := some "1,299", priceFraction := some "00",
    delivery := some { priceAttr := some "FREE", boldText := none }, seller := none }

/-- The offer extracted from `c4Div`. -/
def c4Offer : OfferData :=
  { seller_id := none, seller_name := none, buy_box_winner := false, prime := false,
    price := some 1299, shipping_cost := some 0, total_price := some 1299,
    earliest_days := none, latest_days := none, delivery_time_range := none,
    delivery_estimate := none }

/-- Any of the three relative-keyword tests of `parse_delivery_days`. -/
def keywordHit (text : String) : Bool :=
  strContains (lowerStr text) "overnight" || strContains (lowerStr text) "today" ||
    strContains (lowerStr text) "tomorrow"

/-- The scraper state used by the C2 scenarios: an already-initialized
session with no cached details. -/
def stInit : ScraperState :=
  { is_initialized := true, product_details := none, initial_csrf_token := none }

/-- C2 counterexample environment: handshake and unfiltered-offers steps all
succeed (with the eligibility filter present), but the step-4 transport for
the filtered listing fails. -/
def envC2 : FetchEnv :=
  { page1 := { ok := true, details := [], token := some "t0" },
    page2 := { ok := true, details := [], token := some "t1" },
    modalToken := some "t2",
    allOffersHtml := true,
    allParse := some ([offerWithSeller (some "A")], true),
    primeHtml := false,
    primeParse := none }

/-- C2 environment with a failing handshake (step 1). -/
def envC2fail : FetchEnv :=
  { envC2 with page2 := { ok := false, details := [], token := none } }

/-- C2 environment where the step-4 transport succeeds but its HTML fails to
parse (`prime_offers_data` is `None`): the tolerant branch defaults the
filtered set to empty. -/
def envC2parse : FetchEnv :=
  { envC2 with primeHtml := true, primeParse := none }

/-- C10 environment for the first call: every step succeeds but the product
page's details parse produces an empty record (e.g. `centerCol` missing). -/
def env10a : FetchEnv :=
  { page1 := { ok := true, details := [], token := some "t0" },
    page2 := { ok := true, details := [], token := some "t1" },
    modalToken := some "m", allOffersHtml := true, allParse := some ([], false),
    primeHtml := true, primeParse := some [] }

/-- C10 environment for the second call: same, but the second identifier's
page has details. -/
def env10b : FetchEnv :=
  { env10a with
    page2 := { ok := true, details := [("product_title", "Second")], token := some "t1" } }

/-- C10 environment whose first page has non-empty details. -/
def env10c : FetchEnv :=
  { env10a with
    page2 := { ok := true, details := [("product_title", "First")], token := some "t1" } }

/-- Record returned by the first C10-witness call. -/
def r10c : ProductRecord :=
  { asin := "A1", product_details := some [("product_title", "First")], offers_data := [] }

/-- State after the first C10-witness call. -/
def st10c : ScraperState :=
  { is_initialized := true, product_details := some [("product_title", "First")],
    initial_csrf_token := some "t1" }

/-- Record returned by the second C10-witness call: it carries the FIRST
page's details even though the second page has different ones. -/
def r10c2 : ProductRecord :=
  { asin := "A2", product_details := some [("product_title", "First")], offers_data := [] }

/-! ## Claim theorems -/

/-- C1: the merge returns exactly the offers of `allOffers`, in discovery
order, with each offer's eligibility (`prime`) flag true iff its seller id
occurs among the seller ids of `filteredOffers`; offers present only in
`filteredOffers` are not emitted. -/
theorem C1_merge_eligibility (allOffers primeOffers : List OfferData) :
    (mergeOffers allOffers primeOffers).length = allOffers.length ∧
    ∀ (i : Nat) (o : OfferData), allOffers[i]? = some o →
      ∃ m, (mergeOffers allOffers primeOffers)[i]? = some m ∧
        mergedMatches o m primeOffers := by
  refine ⟨by simp [mergeOffers], ?_⟩
  intro i o h
  refine ⟨{ o with prime := decide (o.seller_id ∈ primeOffers.map (·.seller_id)) }, ?_, ?_⟩
  · simp [mergeOffers, List.getElem?_map, h]
  · unfold mergedMatches
    simp

/-- C1 witness: the spec's merge example, `allOffers = [A, B]`,
`filteredOffers = [B]`: seller A's flag is false, B's is true, order kept. -/
theorem C1_merge_eligibility_witness :
    (∃ m, (mergeOffers [offerWithSeller (some "A"), offerWithSeller (some "B")]
        [offerWithSeller (some "B")])[0]? = some m ∧
      mergedMatches (offerWithSeller (some "A")) m [offerWithSeller (some "B")]) ∧
    mergeOffers [offerWithSeller (some "A"), offerWithSeller (some "B")]
        [offerWithSeller (some "B")] =
      [offerWithSeller (some "A"), { offerWithSeller (some "B") with prime := true }] :=
  ⟨(C1_merge_eligibility _ _).2 0 (offerWithSeller (some "A")) rfl, by decide⟩

/-- C9 counterexample: `initialize_pool` always submits 5 session
initializations (`for i in range(5)`), even when the configuration sets
`initial_session_pool_size = 7`. -/
theorem C9_pool_size_counterexample :
    poolInitAttempts { defaultConfig with initial_session_pool_size := 7 } = 5 ∧
    ({ defaultConfig with initial_session_pool_size := 7 } : Config).initial_session_pool_size = 7 ∧
    (5 : Nat) ≠ 7 :=
  ⟨rfl, rfl, by decide⟩

/-- C9 amended: the pool attempts exactly 5 warmed sessions regardless of
the `initial_session_pool_size` option; when the configuration file is
unreadable, `load_config` falls back to the documented defaults
(pool size 5, proxies off, initial concurrency 3, delay 0.0005, increment 2)
rather than failing. -/
theorem C9_pool_size_amended :
    (∀ c : Config, poolInitAttempts c = 5) ∧
    load_config none = defaultConfig ∧
    defaultConfig.initial_session_pool_size = 5 ∧
    defaultConfig.allow_proxy = false ∧
    defaultConfig.concurrent_requests_control =
      { initial_concurrent := 3, scale_up_delay := 1 / 2000, scale_increment := 2 } :=
  ⟨fun _ => rfl, rfl, rfl, rfl, rfl⟩

/-- C6: evaluating `parse_delivery_days` on the year-boundary range
`"December 30 - January 3"` (current date 2025-06-15). The month list is
collected by iterating the month dictionary, i.e. in calendar order
(January before December), so the first day number 30 is paired with
January and the second day number 3 with December, producing the inverted
span (229, 171) instead of the document-order pairing (198, 202). -/
theorem C6_month_pairing_failing_input :
    parse_delivery_days ⟨2025, 6, 15⟩ "December 30 - January 3" =
      some (some 229, some 171, none) ∧
    mentionedMonths "December 30 - January 3" = [("January", 1), ("December", 12)] ∧
    (171 : Int) < 229 := by
  exact ⟨by decide, by decide, by decide⟩

/-- C7 counterexample: `"February 30"` mentions a month and a day number,
but February 30 is not a valid date, so `datetime(...)` raises `ValueError`
(modelled by `none`): the estimator does not return `(null, null, null)`
and the exception escapes. -/
theorem C7_raise_counterexample :
    parse_delivery_days ⟨2025, 6, 15⟩ "February 30" = none := by decide

/-- C8 counterexample: `"Tomorrow today"` contains the keyword `tomorrow`,
yet the estimator returns `(0, 0)` (the `today` branch wins), not `(1, 1)`
as the claim requires for every text containing `tomorrow`. -/
theorem C8_tomorrow_counterexample :
    strContains (lowerStr "Tomorrow today") "tomorrow" = true ∧
    parse_delivery_days ⟨2025, 6, 15⟩ "Tomorrow today" = some (some 0, some 0, none) ∧
    some (some (0 : Int), some (0 : Int), (none : Option String)) ≠
      some (some 1, some 1, none) := by
  exact ⟨by decide, by decide, by decide⟩

/-! ### Inversion lemmas for `extract_offer_data` -/

theorem ratAdd_eq (a b : ℚ) : ratAdd a b = a + b := by
  unfold ratAdd
  rw [Rat.mkRat_eq_div]
  have ha : ((a.den : ℚ)) ≠ 0 := by
    exact_mod_cast Rat.den_ne_zero a
  have hb : ((b.den : ℚ)) ≠ 0 := by
    exact_mod_cast Rat.den_ne_zero b
  conv_rhs => rw [← Rat.num_div_den a, ← Rat.num_div_den b]
  rw [div_add_div _ _ ha hb]
  push_cast
  ring_nf

theorem parseMoney_nonneg {s : String} {q : ℚ} (h : parseMoney s = some q) : 0 ≤ q := by
  have base : ∀ (n d : Nat), (0 : ℚ) ≤ mkRat (n : Int) d := by
    intro n d
    rw [Rat.mkRat_eq_div]
    positivity
  simp only [parseMoney] at h
  split at h
  · split at h
    · cases h
    · cases h
      exact base _ _
  · split at h
    · split at h
      · cases h
      · cases h
        exact base _ _
    · cases h
  · cases h

theorem shippingVal_nonneg {de : DeliveryElem} {s : ℚ} (h : shippingVal de = some s) : 0 ≤ s := by
  unfold shippingVal at h
  split at h
  · cases h
  · split at h
    · cases h
      exact le_refl 0
    · dsimp only at h
      split at h
      · cases h
        exact le_refl 0
      · exact parseMoney_nonneg h

theorem finishSeller_fields {div : OfferDiv} {od od' : OfferData}
    (h : finishSeller div od = some od') :
    od'.buy_box_winner = od.buy_box_winner ∧ od'.prime = od.prime ∧
    od'.price = od.price ∧ od'.shipping_cost = od.shipping_cost ∧
    od'.total_price = od.total_price := by
  unfold finishSeller at h
  split at h
  · cases h
    exact ⟨rfl, rfl, rfl, rfl, rfl⟩
  · split at h
    · cases h
    · cases h
      exact ⟨rfl, rfl, rfl, rfl, rfl⟩

/-- The shape of any successfully extracted offer: the buy-box flag is the
`is_pinned` argument, and price / shipping / total are in one of exactly
three configurations. -/
theorem extract_offer_data_core {today : Date} {div : OfferDiv} {pin : Bool} {od : OfferData}
    (h : extract_offer_data today div pin = some od) :
    od.buy_box_winner = pin ∧
    ((od.price = none ∧ od.shipping_cost = none ∧ od.total_price = none) ∨
     (∃ p, od.price = some p ∧ od.shipping_cost = none ∧ od.total_price = some p) ∨
     (∃ p s, od.price = some p ∧ od.shipping_cost = some s ∧ 0 ≤ s ∧
        od.total_price = some (p + s))) := by
  unfold extract_offer_data at h
  split at h
  · cases h
  · rename_i priceOpt hpf
    cases priceOpt with
    | none =>
      try dsimp only at h
      split at h
      · -- no delivery element, no price
        obtain ⟨hb, _, hp, hs, ht⟩ := finishSeller_fields h
        exact ⟨hb, Or.inl ⟨by simp_all, by simp_all, by simp_all⟩⟩
      · -- delivery element present but no price: KeyError
        split at h
        · cases h
        · exact Option.noConfusion h
    | some p =>
      try dsimp only at h
      split at h
      · -- no delivery element
        obtain ⟨hb, _, hp, hs, ht⟩ := finishSeller_fields h
        refine ⟨hb, Or.inr (Or.inl ⟨p, ?_, ?_, ?_⟩)⟩ <;> simp_all
      · -- delivery element present
        split at h
        · cases h
        · rename_i sc hsc
          try dsimp only at h
          split at h
          · -- no bold delivery text
            obtain ⟨hb, _, hp, hs, ht⟩ := finishSeller_fields h
            exact ⟨hb, Or.inr (Or.inr ⟨p, sc, by simp_all, by simp_all,
              shippingVal_nonneg hsc, by simp_all [ratAdd_eq]⟩)⟩
          · split at h
            · cases h
            · obtain ⟨hb, _, hp, hs, ht⟩ := finishSeller_fields h
              exact ⟨hb, Or.inr (Or.inr ⟨p, sc, by simp_all, by simp_all,
                shippingVal_nonneg hsc, by simp_all [ratAdd_eq]⟩)⟩

theorem mapOpt_mem {α β : Type} {f : α → Option β} :
    ∀ {l : List α} {bs : List β}, mapOpt f l = some bs →
      ∀ b ∈ bs, ∃ a ∈ l, f a = some b := by
  intro l
  induction l with
  | nil =>
    intro bs h b hb
    cases h
    simp at hb
  | cons a t ih =>
    intro bs h b hb
    unfold mapOpt at h
    split at h
    · rename_i b' bs' hfa hrec
      cases h
      rcases List.mem_cons.mp hb with hb | hb
      · exact ⟨a, List.mem_cons_self a t, hb ▸ hfa⟩
      · obtain ⟨a', ha', hfa'⟩ := ih hrec b hb
        exact ⟨a', List.mem_cons_of_mem a ha', hfa'⟩
    · cases h

/-- A list made of an at-most-one-element prefix followed by offers whose
buy-box flag is false has at most one buy-box winner, and any winner is the
head of the list. -/
theorem buybox_head_only {pre rest : List OfferData}
    (hpre : pre.length ≤ 1) (hrest : ∀ o ∈ rest, o.buy_box_winner = false) :
    ((pre ++ rest).countP (·.buy_box_winner) ≤ 1 ∧
      ∀ o ∈ pre ++ rest, o.buy_box_winner = true → (pre ++ rest).head? = some o) := by
  have hcrest : rest.countP (·.buy_box_winner) = 0 := by
    rw [List.countP_eq_zero]
    intro o ho
    simp [hrest o ho]
  constructor
  · rw [List.countP_append, hcrest]
    have := List.countP_le_length (l := pre) (p := (·.buy_box_winner))
    omega
  · intro o ho htrue
    rcases List.mem_append.mp ho with ho | ho
    · cases pre with
      | nil => cases ho
      | cons od pre' =>
        cases pre' with
        | nil =>
          have hoeq : o = od := by simpa using ho
          subst hoeq
          rfl
        | cons od2 pre'' =>
          exfalso
          simp at hpre
    · rw [hrest o ho] at htrue
      exact Bool.noConfusion htrue

/-- `mergeOffers` preserves the number of buy-box winners. -/
theorem mergeOffers_countP (offers primeOffers : List OfferData) :
    (mergeOffers offers primeOffers).countP (·.buy_box_winner) =
      offers.countP (·.buy_box_winner) := by
  rw [mergeOffers, List.countP_map]
  rfl

/-- C3: in the offers list produced by a successful `parse_offers` — and in
its image under the merge — at most one offer has `buy_box_winner = true`,
and any such offer is the first element. -/
theorem C3_buybox_unique_first :
    ∀ (today : Date) (doc : OffersDoc) (offers : List OfferData) (hp : Bool),
      parse_offers today doc = some (offers, hp) →
      ∀ primeOffers : List OfferData,
        (offers.countP (·.buy_box_winner) ≤ 1 ∧
          ∀ o ∈ offers, o.buy_box_winner = true → offers.head? = some o) ∧
        ((mergeOffers offers primeOffers).countP (·.buy_box_winner) ≤ 1 ∧
          ∀ m ∈ mergeOffers offers primeOffers, m.buy_box_winner = true →
            (mergeOffers offers primeOffers).head? = some m) := by
  intro today doc offers hp h primeOffers
  unfold parse_offers at h
  split at h
  · cases h
  · rename_i pinnedPart hpin
    split at h
    · cases h
    · rename_i rest hrest
      cases h
      have hrestF : ∀ o ∈ rest, o.buy_box_winner = false := by
        intro o ho
        obtain ⟨d, _, hd⟩ := mapOpt_mem hrest o ho
        exact (extract_offer_data_core hd).1
      have hpreLen : pinnedPart.length ≤ 1 := by
        split at hpin
        · cases hpin
          simp
        · rename_i d _
          rcases hx : extract_offer_data today d true with _ | od
          · rw [hx] at hpin
            cases hpin
          · rw [hx] at hpin
            cases hpin
            simp
      have base := buybox_head_only hpreLen hrestF
      refine ⟨base, ?_, ?_⟩
      · rw [mergeOffers_countP (pinnedPart ++ rest) primeOffers]
        exact base.1
      · intro m hm htrue
        rw [mergeOffers] at hm ⊢
        obtain ⟨o, ho, rfl⟩ := List.mem_map.mp hm
        have hob : o.buy_box_winner = true := htrue
        have hhead := base.2 o ho hob
        cases hlist : pinnedPart ++ rest with
        | nil =>
          rw [hlist] at hhead
          cases hhead
        | cons a t =>
          rw [hlist] at hhead
          have : a = o := by
            simpa using hhead
          subst this
          rfl

/-- C3 witness: a concrete document with a pinned and a plain offer. -/
theorem C3_buybox_unique_first_witness :
    (c3Offers.countP (·.buy_box_winner) ≤ 1 ∧
      ∀ o ∈ c3Offers, o.buy_box_winner = true → c3Offers.head? = some o) ∧
    ((mergeOffers c3Offers []).countP (·.buy_box_winner) ≤ 1 ∧
      ∀ m ∈ mergeOffers c3Offers [], m.buy_box_winner = true →
        (mergeOffers c3Offers []).head? = some m) :=
  C3_buybox_unique_first ⟨2025, 6, 15⟩ c3Doc c3Offers false (by decide) []

/-- C4: for every successfully extracted offer whose price is known,
the total price is the price plus a nonnegative shipping cost when the
shipping cost is known, and equals the price when the shipping cost is
unknown or zero. -/
theorem C4_total_price :
    ∀ (today : Date) (div : OfferDiv) (pin : Bool) (od : OfferData) (p : ℚ),
      extract_offer_data today div pin = some od → od.price = some p →
      (∀ s : ℚ, od.shipping_cost = some s →
        0 ≤ s ∧ od.total_price = some (p + s) ∧ ∃ t, od.total_price = some t ∧ p ≤ t) ∧
      (od.shipping_cost = none → od.total_price = some p) ∧
      (od.shipping_cost = some 0 → od.total_price = some p) := by
  intro today div pin od p h hp
  rcases (extract_offer_data_core h).2 with ⟨h1, _, _⟩ | ⟨p', h1, h2, h3⟩ | ⟨p', s', h1, h2, h3, h4⟩
  · rw [h1] at hp
    cases hp
  · rw [h1] at hp
    obtain rfl := Option.some.inj hp
    refine ⟨?_, fun _ => h3, ?_⟩
    · intro s hs
      rw [h2] at hs
      cases hs
    · intro hs
      rw [h2] at hs
      cases hs
  · rw [h1] at hp
    obtain rfl := Option.some.inj hp
    refine ⟨?_, ?_, ?_⟩
    · intro s hs
      rw [h2] at hs
      obtain rfl := Option.some.inj hs
      exact ⟨h3, h4, _, h4, le_add_of_nonneg_right h3⟩
    · intro hs
      rw [h2] at hs
      cases hs
    · intro hs
      rw [h2] at hs
      obtain rfl : s' = 0 := Option.some.inj hs
      rw [h4, add_zero]

/-- C4 witness: the concrete offer from `c4Div` (price 1299, FREE shipping). -/
theorem C4_total_price_witness :
    (∀ s : ℚ, c4Offer.shipping_cost = some s →
      0 ≤ s ∧ c4Offer.total_price = some (1299 + s) ∧
        ∃ t, c4Offer.total_price = some t ∧ 1299 ≤ t) ∧
    (c4Offer.shipping_cost = none → c4Offer.total_price = some 1299) ∧
    (c4Offer.shipping_cost = some 0 → c4Offer.total_price = some 1299) :=
  C4_total_price ⟨2025, 6, 15⟩ c4Div false c4Offer 1299 (by decide) (by decide)

theorem ne_empty_of_lower_contains {text pat : String} (hpat : pat.data ≠ [])
    (h : strContains (lowerStr text) pat = true) : text ≠ "" := by
  intro he
  subst he
  rw [show lowerStr "" = "" from rfl] at h
  unfold strContains hasSubstr at h
  simp [List.isEmpty] at h
  exact hpat (by cases hp : pat.data with
    | nil => rfl
    | cons a t => rw [hp] at h; simp at h)

/-- C7 amended: the estimator raises exactly when the input is nonempty,
matches no relative keyword, and pairs a mentioned month with a day number
into an invalid calendar date (`datetime(...)` raises `ValueError`); any
input mentioning no month name or containing no day number never raises and
(absent the relative keywords) yields `(null, null, null)`. -/
theorem C7_no_dates_amended : ∀ (today : Date) (text : String),
    (parse_delivery_days today text = none ↔
      text ≠ "" ∧ keywordHit text = false ∧ resolvedDatesValid today text = false) ∧
    ((mentionedMonths text = [] ∨ digitRuns text = []) → keywordHit text = false →
      parse_delivery_days today text = some (none, none, none)) := by
  intro today text
  constructor
  · by_cases he : text = ""
    · subst he
      simp [parse_delivery_days]
    · unfold parse_delivery_days
      rw [if_neg he]
      by_cases h1 : strContains (lowerStr text) "overnight"
      · simp [h1, keywordHit, he]
      · by_cases h2 : strContains (lowerStr text) "today"
        · simp [h1, h2, keywordHit, he]
        · by_cases h3 : strContains (lowerStr text) "tomorrow"
          · simp [h1, h2, h3, keywordHit, he]
          · have hk : keywordHit text = false := by
              unfold keywordHit
              simp [h1, h2, h3]
            simp only [Bool.not_eq_true] at h1 h2 h3
            simp only [h1, h2, h3, Bool.false_eq_true, if_false]
            simp only [ne_eq, he, not_false_iff, true_and, hk, true_iff,
              eq_self_iff_true]
            unfold resolvedDatesValid
            cases hmm : mentionedMonths text with
            | nil => simp
            | cons m1 restM =>
              cases hd : digitRuns text with
              | nil => simp
              | cons d1 ds =>
                cases ds with
                | nil =>
                  dsimp only
                  cases hmk : mkDate
                      (if m1.2 < today.month then today.year + 1 else today.year)
                      m1.2 d1 with
                  | none => simp
                  | some dd => simp
                | cons d2 ds2 =>
                  cases restM with
                  | nil =>
                    dsimp only
                    cases hmk1 : mkDate
                        (if m1.2 < today.month then today.year + 1 else today.year)
                        m1.2 d1 <;>
                      cases hmk2 : mkDate
                          (if m1.2 < today.month then today.year + 1 else today.year)
                          m1.2 d2 <;>
                        simp
                  | cons m2 restM2 =>
                    dsimp only
                    cases hmk1 : mkDate
                        (if m1.2 < today.month then today.year + 1 else today.year)
                        m1.2 d1 <;>
                      cases hmk2 : mkDate
                          (if m2.2 < today.month then today.year + 1 else today.year)
                          m2.2 d2 <;>
                        simp
  · intro hor hk
    have h123 : strContains (lowerStr text) "overnight" = false ∧
        strContains (lowerStr text) "today" = false ∧
        strContains (lowerStr text) "tomorrow" = false := by
      unfold keywordHit at hk
      simp at hk
      exact ⟨hk.1.1, hk.1.2, hk.2⟩
    obtain ⟨h1, h2, h3⟩ := h123
    by_cases he : text = ""
    · subst he
      rfl
    · unfold parse_delivery_days
      rw [if_neg he]
      simp only [h1, h2, h3, Bool.false_eq_true, if_false]
      rcases hor with hm | hd
      · rw [hm]
      · cases hmm : mentionedMonths text with
        | nil => rfl
        | cons m ms =>
          rw [hd]

/-- C7 witness: a concrete keyword-free, date-free input parses to all-null,
and `"April 31"` (April has 30 days) raises. -/
theorem C7_no_dates_amended_witness :
    parse_delivery_days ⟨2025, 6, 15⟩ "no estimate available" = some (none, none, none) ∧
    parse_delivery_days ⟨2025, 6, 15⟩ "April 31" = none :=
  ⟨(C7_no_dates_amended ⟨2025, 6, 15⟩ "no estimate available").2 (Or.inl (by decide)) (by decide),
   ((C7_no_dates_amended ⟨2025, 6, 15⟩ "April 31").1).mpr
     ⟨by decide, by decide, by decide⟩⟩

/-- C8 amended: a text containing `overnight` or `today` (case-insensitively)
yields `(0, 0)`; a text containing `tomorrow` but neither `overnight` nor
`today` yields `(1, 1)`; the clock-time range is extracted independently;
`estimate("Tomorrow") = (1, 1, None)` and
`estimate("Overnight 7 AM - 11 AM") = (0, 0, "7 AM - 11 AM")`. -/
theorem C8_keywords_amended : ∀ (today : Date) (text : String),
    ((strContains (lowerStr text) "overnight" = true ∨
        strContains (lowerStr text) "today" = true) →
      parse_delivery_days today text = some (some 0, some 0, searchTimeRange text)) ∧
    (strContains (lowerStr text) "tomorrow" = true →
      strContains (lowerStr text) "overnight" = false →
      strContains (lowerStr text) "today" = false →
      parse_delivery_days today text = some (some 1, some 1, searchTimeRange text)) ∧
    parse_delivery_days today "Tomorrow" = some (some 1, some 1, none) ∧
    parse_delivery_days today "Overnight 7 AM - 11 AM" =
      some (some 0, some 0, some "7 AM - 11 AM") := by
  intro today text
  refine ⟨?_, ?_, by rfl, by rfl⟩
  · intro h
    have hne : text ≠ "" := by
      rcases h with h | h
      · exact ne_empty_of_lower_contains (by decide) h
      · exact ne_empty_of_lower_contains (by decide) h
    unfold parse_delivery_days
    rw [if_neg hne]
    rcases h with h | h
    · simp [h]
    · by_cases h1 : strContains (lowerStr text) "overnight"
      · simp [h1]
      · simp [h1, h]
  · intro h h1 h2
    have hne : text ≠ "" := ne_empty_of_lower_contains (by decide) h
    unfold parse_delivery_days
    rw [if_neg hne]
    simp [h, h1, h2]

/-- C8 witness: the overnight example, through the amended theorem. -/
theorem C8_keywords_amended_witness :
    parse_delivery_days ⟨2025, 6, 15⟩ "Overnight 7 AM - 11 AM" =
      some (some 0, some 0, some "7 AM - 11 AM") := by
  have h := (C8_keywords_amended ⟨2025, 6, 15⟩ "Overnight 7 AM - 11 AM").1 (Or.inl (by decide))
  rw [h]
  decide

/-! ### C2 / C10: failure routing and the details cache -/

theorem pageRequest_fst (pr : PageResult) (b : Bool) (st : ScraperState) :
    (pageRequest pr b st).1 = if pr.ok then pr.token else none := by
  unfold pageRequest
  split
  · rfl
  · rfl

theorem pageRequest_isInit (pr : PageResult) (b : Bool) (st : ScraperState) :
    ((pageRequest pr b st).2).is_initialized = st.is_initialized := by
  unfold pageRequest
  by_cases h : pr.ok
  · simp only [h, if_true]
    split
    · rfl
    · rfl
  · simp [h]

theorem pageRequest_snd_pd (pr : PageResult) (st : ScraperState) :
    ((pageRequest pr false st).2).product_details = st.product_details := by
  unfold pageRequest
  by_cases h : pr.ok <;> simp [h]

theorem initSession_pd (pr : PageResult) (st : ScraperState) :
    ((initSession pr st).2).product_details = st.product_details := by
  unfold initSession
  rcases h : (pageRequest pr false st).1 with _ | tok <;>
    simp [h, pageRequest_snd_pd]

/-- C2 counterexample: a non-success transport status at step 4 (the
filtered offers fetch) does not abort the fetch — the call still returns a
ProductRecord (with every eligibility flag false). -/
theorem C2_step4_failure_counterexample :
    envC2.primeHtml = false ∧
    envC2.allParse = some ([offerWithSeller (some "A")], true) ∧
    (get_product_data envC2 "B09X7CRKRZ" stInit).1 =
      some { asin := "B09X7CRKRZ", product_details := some [],
             offers_data := [offerWithSeller (some "A")] } := by
  refine ⟨rfl, rfl, by decide⟩

/-- C2 amended: on an initialized session, a failure in steps 1-3 (product
page transport or token, modal token, unfiltered offers transport or parse)
aborts the fetch; the session is never invalidated (`is_initialized` stays
true, so the pool will reuse it even after a handshake failure); a step-4
failure — the filtered offers transport or its parse — is tolerated and the
fetch completes with the merge applied to an empty filtered set. -/
theorem C2_failure_routing_amended :
    ∀ (env : FetchEnv) (asin : String) (st : ScraperState),
      st.is_initialized = true →
      ((env.page2.ok = false ∨ env.page2.token = none ∨ env.modalToken = none ∨
          env.allOffersHtml = false ∨ env.allParse = none) →
        (get_product_data env asin st).1 = none) ∧
      ((get_product_data env asin st).2.is_initialized = true) ∧
      (∀ (l : List OfferData) (tok1 tok2 : String),
        env.page2.ok = true → env.page2.token = some tok1 →
        env.modalToken = some tok2 → env.allOffersHtml = true →
        env.allParse = some (l, true) →
        (env.primeHtml = false ∨ env.primeParse = none) →
        (get_product_data env asin st).1 =
          some { asin := asin,
                 product_details := (pageRequest env.page2 true st).2.product_details,
                 offers_data := mergeOffers l [] }) := by
  intro env asin st hinit
  refine ⟨?_, ?_, ?_⟩
  · intro hfail
    unfold get_product_data
    simp only [hinit, if_true]
    rcases hfail with h | h | h | h | h <;>
      · repeat' split
        all_goals simp_all [pageRequest_fst]
  · unfold get_product_data
    simp only [hinit, if_true]
    repeat' split
    all_goals simp_all [pageRequest_isInit]
  · intro l tok1 tok2 hok htok hmt haoh hap hph
    unfold get_product_data
    rcases hph with hph | hph <;>
      simp [hinit, pageRequest_fst, hok, htok, hmt, haoh, hap, hph]

/-- C2 witness: a handshake failure aborts the fetch yet leaves the session
marked initialized (reusable), and a step-4 parse failure still yields a
completed record with an empty filtered set. -/
theorem C2_failure_routing_amended_witness :
    (get_product_data envC2fail "B09X7CRKRZ" stInit).1 = none ∧
    (get_product_data envC2fail "B09X7CRKRZ" stInit).2.is_initialized = true ∧
    (get_product_data envC2parse "B09X7CRKRZ" stInit).1 =
      some { asin := "B09X7CRKRZ",
             product_details := (pageRequest envC2parse.page2 true stInit).2.product_details,
             offers_data := mergeOffers [offerWithSeller (some "A")] [] } :=
  ⟨(C2_failure_routing_amended envC2fail "B09X7CRKRZ" stInit rfl).1 (Or.inl rfl),
   (C2_failure_routing_amended envC2fail "B09X7CRKRZ" stInit rfl).2.1,
   (C2_failure_routing_amended envC2parse "B09X7CRKRZ" stInit rfl).2.2
     [offerWithSeller (some "A")] "t1" "t2" rfl rfl rfl rfl rfl (Or.inr rfl)⟩

/-- C10 counterexample: when the first call cached an empty details record,
the second call re-parses and its returned record carries the details of the
second identifier's page, not the first's. -/
theorem C10_details_cache_counterexample :
    (get_product_data env10a "A1" freshScraper).1 =
      some { asin := "A1", product_details := some [], offers_data := [] } ∧
    (get_product_data env10b "A2" (get_product_data env10a "A1" freshScraper).2).1 =
      some { asin := "A2", product_details := some [("product_title", "Second")],
             offers_data := [] } ∧
    env10a.page2.details ≠ [("product_title", "Second")] := by
  refine ⟨by decide, by decide, by decide⟩

/-- C10 amended: whenever the first of two consecutive successful calls on a
fresh scraper parsed a non-empty details record, both calls' records carry
the details of the first identifier's page — the second page is not
re-parsed. -/
theorem C10_details_cache_amended :
    ∀ (env1 env2 : FetchEnv) (a1 a2 : String) (r1 : ProductRecord) (st1 : ScraperState),
      get_product_data env1 a1 freshScraper = (some r1, st1) →
      env1.page2.details ≠ [] →
      ∀ (r2 : ProductRecord) (st2 : ScraperState),
        get_product_data env2 a2 st1 = (some r2, st2) →
        r1.product_details = some env1.page2.details ∧
        r2.product_details = some env1.page2.details := by
  intro env1 env2 a1 a2 r1 st1 H1 hne r2 st2 H2
  -- details of the state reached by the first successful call
  have hst1 : st1.product_details = some env1.page2.details ∧
      r1.product_details = some env1.page2.details := by
    unfold get_product_data at H1
    have hfi : freshScraper.is_initialized = false := rfl
    simp only [hfi, Bool.false_eq_true, if_false] at H1
    rcases hi : (initSession env1.page1 freshScraper).1 with _ | _
    all_goals rw [hi] at H1
    · simp at H1
    · simp only [Bool.not_true, Bool.false_eq_true, if_false] at H1
      rcases hr : (pageRequest env1.page2 true (initSession env1.page1 freshScraper).2).1
        with _ | tok
      all_goals rw [hr] at H1
      · simp at H1
      · rcases hmt : env1.modalToken with _ | mt
        all_goals rw [hmt] at H1
        · simp at H1
        · rcases haoh : env1.allOffersHtml with _ | _
          all_goals rw [haoh] at H1
          · simp at H1
          · rcases hap : env1.allParse with _ | ⟨l, hp⟩
            all_goals rw [hap] at H1
            · simp at H1
            · simp only [Prod.mk.injEq] at H1
              obtain ⟨hrec, hstate⟩ := H1
              have hok : env1.page2.ok = true := by
                by_cases h : env1.page2.ok
                · exact h
                · rw [pageRequest_fst] at hr
                  simp [h] at hr
              have hpd :
                  ((pageRequest env1.page2 true (initSession env1.page1 freshScraper).2).2).product_details =
                    some env1.page2.details := by
                unfold pageRequest
                have hfpd : ((initSession env1.page1 freshScraper).2).product_details = none := by
                  rw [initSession_pd]
                  rfl
                simp [hok, hfpd, detailsTruthy]
              constructor
              · simpa using hpd
              · simpa using hpd
  -- the second call does not overwrite a truthy cached details record
  have htruthy : detailsTruthy st1.product_details = true := by
    rw [hst1.1]
    cases hd : env1.page2.details with
    | nil => exact absurd hd hne
    | cons x xs => simp [detailsTruthy]
  refine ⟨hst1.2, ?_⟩
  have hinit2pd : ((if st1.is_initialized then (true, st1)
      else initSession env2.page1 st1).2).product_details = st1.product_details := by
    by_cases h : st1.is_initialized
    · simp [h]
    · simp [h, initSession_pd]
  unfold get_product_data at H2
  dsimp only at H2
  rcases hi2 : (if st1.is_initialized then (true, st1) else initSession env2.page1 st1).1
    with _ | _
  all_goals rw [hi2] at H2
  · simp at H2
  · simp only [Bool.not_true, Bool.false_eq_true, if_false] at H2
    rcases hr2 : (pageRequest env2.page2 true
        (if st1.is_initialized then (true, st1) else initSession env2.page1 st1).2).1
      with _ | tok2
    all_goals rw [hr2] at H2
    · simp at H2
    · rcases hmt2 : env2.modalToken with _ | mt2
      all_goals rw [hmt2] at H2
      · simp at H2
      · rcases haoh2 : env2.allOffersHtml with _ | _
        all_goals rw [haoh2] at H2
        · simp at H2
        · rcases hap2 : env2.allParse with _ | ⟨l2, hp2⟩
          all_goals rw [hap2] at H2
          · simp at H2
          · simp only [Prod.mk.injEq] at H2
            obtain ⟨hrec2, _⟩ := H2
            have hok2 : env2.page2.ok = true := by
              by_cases h : env2.page2.ok
              · exact h
              · rw [pageRequest_fst] at hr2
                simp [h] at hr2
            have hpd2 : ((pageRequest env2.page2 true
                (if st1.is_initialized then (true, st1)
                  else initSession env2.page1 st1).2).2).product_details =
                st1.product_details := by
              unfold pageRequest
              simp [hok2, hinit2pd, htruthy]
            show ((pageRequest env2.page2 true
                (if st1.is_initialized then (true, st1)
                  else initSession env2.page1 st1).2).2).product_details =
              some env1.page2.details
            rw [hpd2, hst1.1]

/-- C10 witness: two concrete successful calls with a non-empty first parse. -/
theorem C10_details_cache_amended_witness :
    r10c.product_details = some env10c.page2.details ∧
    r10c2.product_details = some env10c.page2.details :=
  C10_details_cache_amended env10c env10b "A1" "A2" r10c st10c (by decide) (by decide)
    r10c2 st10c (by decide)

/-! ### C5: the bracket/quote scanner characterization -/

theorem stateAt_succ (s : ScanSt) (c : Char) (t : List Char) (k : Nat) :
    stateAt s (c :: t) (k + 1) = stateAt (scanStep s c) t k := by
  simp [stateAt, List.take_succ_cons]

theorem scanLoop_cons_notTerm {s : ScanSt} {c : Char} (h : isTerm s c = false)
    (rest : List Char) (pos : Nat) :
    scanLoop (c :: rest) s pos = scanLoop rest (scanStep s c) (pos + 1) := by
  simp only [scanLoop, scanStep]
  unfold isTerm at h
  by_cases h1 : s.esc
  · simp [h1]
  · by_cases h2 : c = '\\'
    · simp [h1, h2]
    · by_cases h3 : c = '"'
      · subst h3
        by_cases h4 : s.inQ
        · simp [h1, h2, h4]
        · have hc : ¬s.count = 0 := by
            simp [h1, h2, h4] at h
            exact h
          simp [h1, h2, h4, hc]
      · by_cases h5 : s.inQ
        · simp [h1, h2, h3, h5]
        · by_cases h6 : c = '{'
          · simp [h1, h2, h3, h5, h6]
          · by_cases h7 : c = '}'
            · subst h7
              have hc : ¬s.count = 1 := by
                simp [h1, h2, h5] at h
                exact h
              simp [h1, h2, h3, h5, h6, hc]
            · simp [h1, h2, h3, h5, h6, h7]

theorem scanLoop_none_of_noTerm :
    ∀ (cs : List Char) (s : ScanSt) (pos : Nat),
      (∀ (i : Nat) (hi : i < cs.length), isTerm (stateAt s cs i) (cs.get ⟨i, hi⟩) = false) →
      scanLoop cs s pos = none := by
  intro cs
  induction cs with
  | nil =>
    intro s pos _
    rfl
  | cons c t ih =>
    intro s pos h
    have h0 : isTerm s c = false := h 0 (by simp)
    rw [scanLoop_cons_notTerm h0]
    apply ih
    intro i hi
    have hstep := h (i + 1) (by simpa using Nat.succ_lt_succ hi)
    rw [stateAt_succ] at hstep
    exact hstep

theorem scanLoop_some_of_firstTerm :
    ∀ (cs : List Char) (s : ScanSt) (pos i : Nat) (hi : i < cs.length),
      (∀ (k : Nat) (hk : k < i),
        isTerm (stateAt s cs k) (cs.get ⟨k, Nat.lt_trans hk hi⟩) = false) →
      isTerm (stateAt s cs i) (cs.get ⟨i, hi⟩) = true →
      scanLoop cs s pos = some (pos + i + (if cs.get ⟨i, hi⟩ = '}' then 1 else 0)) := by
  intro cs
  induction cs with
  | nil =>
    intro s pos i hi
    exact absurd hi (by simp)
  | cons c t ih =>
    intro s pos i hi hmin hterm
    cases i with
    | zero =>
      have hterm0 : isTerm s c = true := hterm
      unfold isTerm at hterm0
      simp only [Bool.and_eq_true, Bool.or_eq_true, Bool.not_eq_true',
        decide_eq_true_eq, ne_eq] at hterm0
      obtain ⟨⟨⟨h1, h2⟩, h3⟩, h4⟩ := hterm0
      simp only [scanLoop]
      rcases h4 with ⟨hc, hcount⟩ | ⟨hc, hcount⟩
      · subst hc
        simp [h1, h2, h3, hcount]
      · subst hc
        simp [h1, h2, h3, hcount]
    | succ j =>
      have h0 : isTerm s c = false := hmin 0 (Nat.succ_pos j)
      rw [scanLoop_cons_notTerm h0]
      have hj : j < t.length := by
        simpa using hi
      have hmin' : ∀ (k : Nat) (hk : k < j),
          isTerm (stateAt (scanStep s c) t k) (t.get ⟨k, Nat.lt_trans hk hj⟩) = false := by
        intro k hk
        have hstep := hmin (k + 1) (Nat.succ_lt_succ hk)
        rw [stateAt_succ] at hstep
        exact hstep
      have hterm' : isTerm (stateAt (scanStep s c) t j) (t.get ⟨j, hj⟩) = true := by
        have hstep := hterm
        rw [stateAt_succ] at hstep
        exact hstep
      have hres := ih (scanStep s c) (pos + 1) j hj hmin' hterm'
      rw [hres]
      have hg : t.get ⟨j, hj⟩ = (c :: t).get ⟨j + 1, hi⟩ := rfl
      rw [hg]
      congr 1
      omega

/-- C5 amended: with the anchors located (`jsonStart`), the scan returns the
span through a closing brace that brings the bracket balance to zero
provided at least one character follows it; a quote encountered at bracket
depth 0 also ends the scan, returning the span up to the quote; the scan
returns NotFound exactly when an anchor is missing, no terminator occurs
before the end of the input, or the balanced close lands on the very last
character (the source's `json_end >= len(html)` check rejects that span). -/
theorem C5_token_scan_amended :
    (∀ cs : List Char, jsonStart cs = none → extractModalSpan cs = none) ∧
    (∀ (cs : List Char) (j : Nat), jsonStart cs = some j →
      (∀ (i : Nat) (hi : i < (cs.drop j).length),
        isTerm (stateAt scanStart (cs.drop j) i) ((cs.drop j).get ⟨i, hi⟩) = false) →
      extractModalSpan cs = none) ∧
    (∀ (cs : List Char) (j : Nat), jsonStart cs = some j →
      ∀ (i : Nat) (hi : i < (cs.drop j).length),
        (∀ (k : Nat) (hk : k < i),
          isTerm (stateAt scanStart (cs.drop j) k)
            ((cs.drop j).get ⟨k, Nat.lt_trans hk hi⟩) = false) →
        isTerm (stateAt scanStart (cs.drop j) i) ((cs.drop j).get ⟨i, hi⟩) = true →
        (((cs.drop j).get ⟨i, hi⟩ = '}' →
            (j + i + 1 < cs.length →
              extractModalSpan cs = some ((cs.drop j).take (i + 1))) ∧
            (j + i + 1 = cs.length → extractModalSpan cs = none)) ∧
         ((cs.drop j).get ⟨i, hi⟩ ≠ '}' →
            extractModalSpan cs = some ((cs.drop j).take i)))) := by
  refine ⟨?_, ?_, ?_⟩
  · intro cs h
    unfold extractModalSpan
    rw [h]
  · intro cs j hj hno
    unfold extractModalSpan
    rw [hj]
    dsimp only
    rw [scanLoop_none_of_noTerm _ _ _ hno]
  · intro cs j hj i hi hmin hterm
    have hdlen : (cs.drop j).length = cs.length - j := List.length_drop j cs
    have hscan := scanLoop_some_of_firstTerm (cs.drop j) scanStart j i hi hmin hterm
    constructor
    · intro hbrace
      rw [hbrace] at hscan
      simp only [reduceIte] at hscan
      constructor
      · intro hlt
        unfold extractModalSpan
        rw [hj]
        dsimp only
        rw [hscan]
        dsimp only
        rw [if_pos hlt]
        have harith : j + i + 1 - j = i + 1 := by omega
        rw [harith]
      · intro heq
        unfold extractModalSpan
        rw [hj]
        dsimp only
        rw [hscan]
        dsimp only
        rw [if_neg (by omega)]
    · intro hnotbrace
      rw [if_neg hnotbrace] at hscan
      unfold extractModalSpan
      have hlt : j + i + 0 < cs.length := by
        rw [hdlen] at hi
        omega
      rw [hj]
      dsimp only
      rw [hscan]
      dsimp only
      rw [if_pos hlt]
      have harith : j + i + 0 - j = i := by omega
      rw [harith]

/-- C5 counterexample: the anchors are present and the scan's bracket
balance returns to zero (the loop breaks past the closing brace, at
position = input length), yet the extractor reports NotFound, because the
balanced span ends exactly at the end of the input. -/
theorem C5_scan_end_counterexample :
    jsonStart exEnd = some 57 ∧
    scanLoop (exEnd.drop 57) scanStart 57 = some exEnd.length ∧
    extractModalSpan exEnd = none := by
  refine ⟨by decide, by decide, by decide⟩

/-- C5 witness: on the spec's example payload `{"a":"b\"}c"}` (with a
trailing character) the scan returns the full balanced span, including the
escaped quote. -/
theorem C5_token_scan_amended_witness :
    extractModalSpan exGood = some ((exGood.drop 57).take 13) ∧
    (exGood.drop 57).take 13 = ("\x7b\"a\":\"b\\\"\x7dc\"\x7d").data := by
  have h := C5_token_scan_amended.2.2 exGood 57 (by decide) 12 (by decide)
    (by decide) (by decide)
  exact ⟨(h.1 (by decide)).1 (by decide), by decide⟩
